import Mathlib

/-!
Verification of the nhandu literate-programming document processor.

This development is a shallow embedding of the nhandu sources
(src/nhandu/models.py, parser.py, executor.py, renderer.py) in Lean 4.

Modelling conventions:
  * Python strings are Lean `String`; Python `str.strip`, `str.lstrip`,
    `str.rstrip` are `pyStrip`, `pyLstrip`, `pyRstrip` over the Python
    whitespace character class.
  * The Python runtime used by `eval` / `exec` / `compile` is an abstract
    interpreter `PyInterp`: the executor logic is translated from the source
    and is proved for every interpreter; concrete scenarios instantiate the
    interpreter with small models of CPython behaviour (documented where
    defined).  Values flowing through the namespace are `PyVal`
    (ints, strings, None, and opaque objects -- enough for every claim).
  * Exceptions are `PyExn` (exception class name plus message), carried in
    `Except`.  `KeyboardInterrupt` / `SystemExit` (not subclasses of
    `Exception`) are outside the model.
  * OS-level effects (working-directory switching, `sys.path` / `sys.argv`
    adjustment, `figures` directory creation, matplotlib) do not influence
    the block fields the claims are about; the embedding models the
    matplotlib-absent branch of the executor and treats the directory and
    path bookkeeping as no-ops.
  * The YAML library is an external collaborator; it is abstracted as a
    `YamlOracle` producing a `Yaml` value or a parse failure, and concrete
    oracles record actual PyYAML behaviour on the concrete inputs used.
-/

set_option maxRecDepth 4000

namespace Nhandu

/-! ### Python string primitives -/

/-- Python whitespace class used by `str.strip` and friends. -/
def isPySpace (c : Char) : Bool :=
  c == ' ' || c == '\t' || c == '\n' || c == '\r' || c == '\x0b' || c == '\x0c'

/-- Python `str.lstrip()` with no argument. -/
def pyLstrip (s : String) : String :=
  String.mk (s.toList.dropWhile isPySpace)

/-- Python `str.rstrip()` with no argument. -/
def pyRstrip (s : String) : String :=
  String.mk (s.toList.reverse.dropWhile isPySpace).reverse

/-- Python `str.strip()` with no argument. -/
def pyStrip (s : String) : String :=
  pyRstrip (pyLstrip s)

/-- Does the needle match at the head of the haystack (both as char lists)? -/
def subAt : List Char → List Char → Bool
  | [], _ => true
  | _ :: _, [] => false
  | a :: as, b :: bs => a == b && subAt as bs

/-- Does the needle occur anywhere in the haystack (char lists)? -/
def hasSub (needle : List Char) : List Char → Bool
  | [] => subAt needle []
  | c :: cs => subAt needle (c :: cs) || hasSub needle cs

/-- Python `needle in haystack` for strings. -/
def pyIn (needle haystack : String) : Bool :=
  hasSub needle.toList haystack.toList

/-- Character-level worker for `splitLines`. -/
def splitLinesC : List Char → List Char → List String
  | [], acc => [String.mk acc.reverse]
  | c :: cs, acc =>
      if c == '\n' then String.mk acc.reverse :: splitLinesC cs []
      else splitLinesC cs (c :: acc)

/-- Python `s.split("\n")`. -/
def splitLines (s : String) : List String :=
  splitLinesC s.toList []

/-- Python `"\n".join(lines)`. -/
def joinLines : List String → String
  | [] => ""
  | [s] => s
  | s :: rest => s ++ "\n" ++ joinLines rest

/-- Python slicing `s[n:]` (by code points). -/
def strDrop (s : String) (n : Nat) : String :=
  String.mk (s.toList.drop n)

/-- Python slicing `s[:-n]`. -/
def strDropRight (s : String) (n : Nat) : String :=
  String.mk (s.toList.take (s.toList.length - n))

/-- Python `s.startswith(p)`. -/
def strStartsWith (s p : String) : Bool :=
  subAt p.toList s.toList

/-- Python `s.endswith(p)`. -/
def strEndsWith (s p : String) : Bool :=
  subAt p.toList.reverse s.toList.reverse

/-- Python `s.lower()` (the inputs are ASCII). -/
def strToLower (s : String) : String :=
  String.mk (s.toList.map Char.toLower)

/-- The first character of a non-empty string (`d` for the empty one). -/
def strHeadD (s : String) (d : Char) : Char :=
  s.toList.headD d

/-- Python `s.split(sep)` for a three-character separator (the fragment
separators ` + ` and ` = `), left-to-right and non-overlapping. -/
def splitSep3 (x y z : Char) : List Char → List Char → List String
  | [], acc => [String.mk acc.reverse]
  | c1 :: cs, acc =>
      if subAt [x, y, z] (c1 :: cs) then
        match cs with
        | _ :: _ :: rest => String.mk acc.reverse :: splitSep3 x y z rest []
        | _ => [String.mk acc.reverse]
      else splitSep3 x y z cs (c1 :: acc)

/-- Python `s.replace(old, new)` for a single-character `old` (the only
shape `_escape_html` uses). -/
def replaceCharC (old : Char) (new : List Char) : List Char → List Char
  | [] => []
  | c :: cs => (if c == old then new else [c]) ++ replaceCharC old new cs

/-- String-level wrapper for `replaceCharC`. -/
def strReplace1 (s : String) (old : Char) (new : String) : String :=
  String.mk (replaceCharC old new.toList s.toList)

/-- Python `", ".join(parts)`. -/
def joinComma : List String → String
  | [] => ""
  | [s] => s
  | s :: rest => s ++ ", " ++ joinComma rest

/-- Python `int(s)` on a plain digit string, `None` otherwise (the literal
parser of the mini fragment). -/
def strToNatQ (s : String) : Option Nat :=
  if s != "" && s.toList.all Char.isDigit then
    some (s.toList.foldl (fun n c => n * 10 + (c.toNat - 48)) 0)
  else none

/-- Consume an exact literal at the head, returning the remainder. -/
def consumeLit : List Char → List Char → Option (List Char)
  | [], cs => some cs
  | _ :: _, [] => none
  | a :: as, c :: cs => if a == c then consumeLit as cs else none

/-- Match, at the head of `cs`, the regex
`opener \s* re.escape(expr) \s* %>` built by `_process_markdown_block`
(`expr` comes from the extractor and is whitespace-trimmed, so the greedy
`\s*` runs cannot overlap it); returns the remainder after the match. -/
def matchMarkerAt (opener expr : List Char) (cs : List Char) :
    Option (List Char) := do
  let r1 ← consumeLit opener cs
  let r2 := r1.dropWhile isPySpace
  let r3 ← consumeLit expr r2
  let r4 := r3.dropWhile isPySpace
  consumeLit ['%', '>'] r4

/-- Replace the first (leftmost) occurrence of the marker pattern, like
`re.sub(pattern, replacement, text, count=1)`; no match leaves the text
unchanged. -/
def subFirstAux (opener expr repl : List Char) : List Char → Option (List Char)
  | [] => (matchMarkerAt opener expr []).map (fun rest => repl ++ rest)
  | c :: cs =>
      match matchMarkerAt opener expr (c :: cs) with
      | some rest => some (repl ++ rest)
      | none => (subFirstAux opener expr repl cs).map (c :: ·)

/-- String-level wrapper for the count-1 marker substitution; `isValue`
selects the `<%=` or `<%` opener, as `_process_markdown_block` does. -/
def subFirstMarker (isValue : Bool) (expr repl text : String) : String :=
  let opener := if isValue then ['<', '%', '='] else ['<', '%']
  String.mk ((subFirstAux opener expr.toList repl.toList text.toList).getD
    text.toList)

/-! ### The abstract Python runtime -/

/-- Runtime values stored in the execution namespace.  `vOpaque` stands for
objects the claims never inspect (modules, functions). -/
inductive PyVal where
  | vNone : PyVal
  | vInt : Int → PyVal
  | vStr : String → PyVal
  | vOpaque : String → PyVal
deriving DecidableEq, Repr

/-- A raised Python exception: class name and message, as used by the
executor when formatting `f"{type(e).__name__}: {e!s}"`. -/
structure PyExn where
  kind : String
  msg : String
deriving DecidableEq, Repr

/-- The shared mutable namespace `self.namespace : dict[str, Any]`,
modelled as an insertion-ordered association list. -/
abbrev NS := List (String × PyVal)

/-- Dictionary lookup (first binding wins, as keys are unique). -/
def nsGet (k : String) : NS → Option PyVal
  | [] => none
  | (k1, v) :: rest => if k1 == k then some v else nsGet k rest

/-- Dictionary assignment: overwrite an existing key in place, else append. -/
def nsSet (k : String) (v : PyVal) : NS → NS
  | [] => [(k, v)]
  | (k1, v1) :: rest =>
      if k1 == k then (k, v) :: rest else (k1, v1) :: nsSet k v rest

/-- Result of `eval(source, namespace)`: outcome, the (mutated) namespace and
the text the evaluation printed to the redirected stdout. -/
structure EvalRes where
  res : Except PyExn PyVal
  ns : NS
  out : String

/-- Result of `exec(source, namespace)`. -/
structure ExecRes where
  res : Except PyExn Unit
  ns : NS
  out : String

/-- The Python runtime as seen by the executor: `compile(s, "<string>",
"eval")` success, `eval`, `exec`, and the builtins `repr` and `str`.
Partial stdout and partial namespace mutation survive an exception, which is
why `EvalRes` / `ExecRes` carry them alongside the outcome. -/
structure PyInterp where
  compilesAsExpr : String → Bool
  evalE : String → NS → EvalRes
  execS : String → NS → ExecRes
  reprV : PyVal → String
  strV : PyVal → String

/-! ### YAML values (external collaborator) -/

/-- Values produced by `yaml.safe_load` (restricted to the shapes the claims
exercise; keys are strings). -/
inductive Yaml where
  | yNull : Yaml
  | yBool : Bool → Yaml
  | yInt : Int → Yaml
  | yStr : String → Yaml
  | yList : List Yaml → Yaml
  | yMap : List (String × Yaml) → Yaml

/-- Python type name of a YAML-loaded value, as it appears in
`AttributeError` messages. -/
def Yaml.typeName : Yaml → String
  | .yNull => "NoneType"
  | .yBool _ => "bool"
  | .yInt _ => "int"
  | .yStr _ => "str"
  | .yList _ => "list"
  | .yMap _ => "dict"

/-- Is the value a mapping (a Python `dict`)? -/
def Yaml.isMap : Yaml → Bool
  | .yMap _ => true
  | _ => false

/-- Python truthiness of a YAML-loaded value, as used by
`yaml.safe_load(...) or {}` and by the renderer. -/
def yamlTruthy : Yaml → Bool
  | .yNull => false
  | .yBool b => b
  | .yInt n => n != 0
  | .yStr s => s != ""
  | .yList l => !l.isEmpty
  | .yMap m => !m.isEmpty

/-- Lookup in a YAML mapping, Python `data.get(key)` (None for missing). -/
def ymGet (k : String) : List (String × Yaml) → Option Yaml
  | [] => none
  | (k1, v) :: rest => if k1 == k then some v else ymGet k rest

/-- Python `str(v)` on a YAML-loaded value (used in f-strings by the
renderer; list and map renderings are not exercised by any claim). -/
def yamlStr : Yaml → String
  | .yNull => "None"
  | .yBool b => if b then "True" else "False"
  | .yInt n => toString n
  | .yStr s => s
  | .yList _ => "[...]"
  | .yMap _ => "\x7b...\x7d"

/-- The `yaml` module boundary: `safe_load`, abstracted.  An `Except.error`
is a `yaml.YAMLError`; its message is not inspected by the parser. -/
structure YamlOracle where
  load : String → Except String Yaml

/-! ### Data model (models.py) -/

/-- models.py `MarkdownBlock`: a markdown text block. -/
structure MarkdownBlock where
  content : String
  line_number : Nat
deriving DecidableEq, Repr

/-- models.py `CodeBlock`: a code block to be executed.  The constructor
initialises `output`, `error` to `None` and `figures` to `[]`. -/
structure CodeBlock where
  content : String
  language : String := "python"
  hidden : Bool := false
  line_number : Nat := 0
  output : Option String := none
  error : Option String := none
  figures : List String := []
deriving DecidableEq, Repr

/-- models.py `Block`: the tagged union of block variants (the Python base
class with isinstance dispatch, as a closed sum). -/
inductive Block where
  | md : MarkdownBlock → Block
  | code : CodeBlock → Block
deriving DecidableEq, Repr

/-- models.py `InlineCode`: inline code within markdown text.  (The `result`
field of the dataclass is never written by the pipeline and is omitted.) -/
structure InlineCode where
  expression : String
  is_statement : Bool
  position : Nat
deriving DecidableEq, Repr

/-- models.py `DocumentMetadata`.  Fields hold YAML values because the
source performs no type enforcement on `data.get(...)` results; the
defaults mirror the dataclass defaults. -/
structure DocumentMetadata where
  title : Option Yaml := none
  output : Yaml := Yaml.yStr "markdown"
  plot_dpi : Yaml := Yaml.yInt 100
  number_format : Yaml := Yaml.yStr ".4f"
  working_dir : Option Yaml := none
  code_theme : Option Yaml := none
  show_footer : Yaml := Yaml.yBool true
  raw : List (String × Yaml) := []

/-- The `AttributeError` raised by Python when `.get` is called on a value
that is not a dict, as happens in `DocumentMetadata.from_dict` when the
frontmatter parsed to a non-mapping. -/
def attrGetError (v : Yaml) : PyExn :=
  ⟨"AttributeError", "\x27" ++ v.typeName ++ "\x27 object has no attribute \x27get\x27"⟩

/-- models.py `DocumentMetadata.from_dict`: reads the recognised keys with
`data.get` and stores the whole mapping in `raw`.  On a non-mapping
argument the first `data.get` call raises `AttributeError` (the method has
no exception handling of its own). -/
def DocumentMetadata.from_dict : Yaml → Except PyExn DocumentMetadata
  | .yMap data =>
      .ok { title := ymGet "title" data
            output := (ymGet "output" data).getD (Yaml.yStr "markdown")
            plot_dpi := (ymGet "plot_dpi" data).getD (Yaml.yInt 100)
            number_format := (ymGet "number_format" data).getD (Yaml.yStr ".4f")
            working_dir := ymGet "working_dir" data
            code_theme := ymGet "code_theme" data
            show_footer := (ymGet "show_footer" data).getD (Yaml.yBool true)
            raw := data }
  | v => .error (attrGetError v)

/-- models.py `Document`: a parsed nhandu document. -/
structure Document where
  blocks : List Block
  metadata : DocumentMetadata := {}
  source_path : Option String := none

/-- models.py `ExecutedDocument`: a document after code execution, plus the
final namespace (field `namespace` in the source; renamed `namespaceDict`
because `namespace` is a Lean keyword).  The engine never appends to
`execution_errors`. -/
structure ExecutedDocument where
  blocks : List Block
  metadata : DocumentMetadata := {}
  source_path : Option String := none
  namespaceDict : NS := []
  execution_errors : List String := []

/-! ### Parser (parser.py, class PythonLiterateParser) -/

namespace PythonLiterateParser

/-- Match of `markdown_line_pattern`, the regex `^#'\s?(.*?)$`, against one
line (no newline inside): if the line starts with the sentinel, the
captured group is the rest of the line after one optional whitespace
character. -/
def markdownLineMatch (line : String) : Option String :=
  if strStartsWith line "#\x27" then
    let r := strDrop line 2
    some (if r != "" && isPySpace (strHeadD r 'x') then strDrop r 1 else r)
  else none

/-- Match of `hide_marker_pattern`, the regex `^#\|\s*hide\s*$`. -/
def hideMarkerMatch (line : String) : Bool :=
  strStartsWith line "#|" && pyStrip (strDrop line 2) == "hide"

/-- Match of `end_hide_marker_pattern`, the regex `^#\|\s*$`. -/
def endHideMarkerMatch (line : String) : Bool :=
  strStartsWith line "#|" && pyStrip (strDrop line 2) == ""

/-- parser.py `_is_empty_code`: true when every line is blank or a `#`
comment. -/
def is_empty_code (code : String) : Bool :=
  (splitLines code).all fun line =>
    pyStrip line == "" || strStartsWith (pyStrip line) "#"

/-- The frontmatter-scanning loop of `_extract_metadata`: walks the lines
carrying `in_frontmatter`, collecting the stripped bodies of `#'` lines
between the `---` sentinels.  Returns the collected lines and whether the
closing sentinel was reached (`frontmatter_ended`). -/
def fmCollect : List String → Bool → List String → List String × Bool
  | [], _, acc => (acc.reverse, false)
  | line :: rest, inFm, acc =>
    if strStartsWith (pyStrip line) "#\x27" then
      let md := pyLstrip (strDrop line 2)
      if pyStrip md == "---" then
        if !inFm then fmCollect rest true acc
        else (acc.reverse, true)
      else if inFm then fmCollect rest inFm (md :: acc)
      else fmCollect rest inFm acc
    else if inFm && !(strStartsWith (pyStrip line) "#") then (acc.reverse, false)
    else fmCollect rest inFm acc

/-- The frontmatter scan applied to a whole document. -/
def fmCollectTop (content : String) : List String × Bool :=
  fmCollect (splitLines content) false []

/-- parser.py `_extract_metadata`: scan for commented YAML frontmatter;
when a body was collected and the closing sentinel seen, `safe_load` it
(`yaml.YAMLError` falls back to default metadata; the subsequent
`from_dict` call is outside the `try` for any other exception, so an
`AttributeError` from a non-mapping propagates). -/
def extract_metadata (Y : YamlOracle) (content : String) :
    Except PyExn DocumentMetadata :=
  match fmCollectTop content with
  | (yamlLines, ended) =>
    if !yamlLines.isEmpty && ended then
      match Y.load (joinLines yamlLines) with
      | .error _ => .ok {}
      | .ok data =>
          DocumentMetadata.from_dict (if yamlTruthy data then data else .yMap [])
    else .ok {}

/-- State of the block-splitting loop in `_parse_blocks`. -/
structure PState where
  blocks : List Block
  current_markdown_lines : List String
  current_code_lines : List String
  in_hide_block : Bool
  hide_block_start_line : Nat
  current_code_start_line : Nat

/-- Append a markdown block built from the accumulated lines, unless its
joined content is entirely whitespace (`markdown_content.strip()`). -/
def flushMarkdown (blocks : List Block) (mdLines : List String) (startLine : Nat) :
    List Block :=
  if mdLines.isEmpty then blocks
  else
    let mdContent := joinLines mdLines
    if pyStrip mdContent ≠ "" then blocks ++ [Block.md ⟨mdContent, startLine⟩]
    else blocks

/-- Append a code block built from the accumulated lines, unless
`_is_empty_code` filters it. -/
def flushCode (blocks : List Block) (codeLines : List String) (hidden : Bool)
    (startLine : Nat) : List Block :=
  if codeLines.isEmpty then blocks
  else
    let codeContent := joinLines codeLines
    if !is_empty_code codeContent then
      blocks ++ [Block.code { content := codeContent, language := "python",
                              hidden := hidden, line_number := startLine }]
    else blocks

/-- One iteration of the `for line_num, line in enumerate(lines, start=1)`
loop of `_parse_blocks`. -/
def parseStep (st : PState) (lineNum : Nat) (line : String) : PState :=
  if hideMarkerMatch line then
    -- flush pending markdown, then pending code (the latter with hidden=False)
    let blocks := flushMarkdown st.blocks st.current_markdown_lines
      (lineNum - st.current_markdown_lines.length)
    let blocks := flushCode blocks st.current_code_lines false
      st.current_code_start_line
    { st with blocks := blocks, current_markdown_lines := [],
              current_code_lines := [], in_hide_block := true,
              hide_block_start_line := lineNum + 1 }
  else if endHideMarkerMatch line && st.in_hide_block then
    let blocks := flushCode st.blocks st.current_code_lines true
      st.hide_block_start_line
    { st with blocks := blocks, current_code_lines := [],
              in_hide_block := false }
  else
    match markdownLineMatch line with
    | some captured =>
        let blocks := flushCode st.blocks st.current_code_lines
          st.in_hide_block st.current_code_start_line
        { st with blocks := blocks, current_code_lines := [],
                  current_markdown_lines := st.current_markdown_lines ++ [captured] }
    | none =>
        let blocks := flushMarkdown st.blocks st.current_markdown_lines
          (lineNum - st.current_markdown_lines.length)
        let startLine :=
          if st.current_code_lines.isEmpty then lineNum
          else st.current_code_start_line
        { st with blocks := blocks, current_markdown_lines := [],
                  current_code_lines := st.current_code_lines ++ [line],
                  current_code_start_line := startLine }

/-- Run `parseStep` over the numbered lines. -/
def parseLoop : PState → Nat → List String → PState
  | st, _, [] => st
  | st, n, line :: rest => parseLoop (parseStep st n line) (n + 1) rest

/-- parser.py `_parse_blocks`: split the whole content into markdown and
code blocks, with the `#| hide` state machine, then flush the trailing
accumulators. -/
def parse_blocks (content : String) : List Block :=
  let lines := splitLines content
  let st := parseLoop ⟨[], [], [], false, 0, 0⟩ 1 lines
  let blocks := flushMarkdown st.blocks st.current_markdown_lines
    (lines.length - st.current_markdown_lines.length + 1)
  flushCode blocks st.current_code_lines st.in_hide_block
    st.current_code_start_line

/-- Find the first index at which the needle occurs in the haystack. -/
def findSub (needle : List Char) : List Char → Option Nat
  | [] => if subAt needle [] then some 0 else none
  | c :: cs =>
      if subAt needle (c :: cs) then some 0
      else (findSub needle cs).map (· + 1)

/-- Scanner behind `extract_inline_code`: the left-to-right non-overlapping
scan of the regex `<%(?:=)?\s*(.*?)\s*%>` (each match ends at the first
following `%>`; the lazy inner group together with its `\s*` borders
captures the whitespace-trimmed text between the delimiters, and when no
closing `%>` remains no later start position can match either).  `pos` is
the offset of the scanned suffix inside the original text, giving
`match.start()`. -/
def scanInline : Nat → List Char → Nat → List InlineCode
  | 0, _, _ => []
  | _, [], _ => []
  | fuel + 1, c :: cs, pos =>
    if subAt ['<', '%'] (c :: cs) then
      let afterOpen := cs.drop 1
      let isValue := afterOpen.headD ' ' == '='
      let inner := if isValue then afterOpen.drop 1 else afterOpen
      match findSub ['%', '>'] inner with
      | none => []
      | some j =>
        let consumed := 2 + (if isValue then 1 else 0) + j + 2
        ⟨pyStrip (String.mk (inner.take j)), !isValue, pos⟩ ::
          scanInline fuel ((c :: cs).drop consumed) (pos + consumed)
    else scanInline fuel cs (pos + 1)

/-- parser.py `extract_inline_code`: extract the inline markers of one
markdown text, in order, with positions; a `<%= ... %>` marker is a value
marker (`is_statement = false`), a `<% ... %>` marker a statement.  (The
fuel argument of the scanner only bounds its recursion; every step consumes
at least one character, so a full text length of fuel is never
exhausted.) -/
def extract_inline_code (text : String) : List InlineCode :=
  scanInline (text.toList.length + 1) text.toList 0

end PythonLiterateParser

/-- parser.py module-level `parse`: extract metadata, split blocks, attach
the source path.  An exception escaping `_extract_metadata` (see
`DocumentMetadata.from_dict`) propagates to the caller. -/
def parse (Y : YamlOracle) (content : String) (source_path : Option String) :
    Except PyExn Document := do
  let metadata ← PythonLiterateParser.extract_metadata Y content
  .ok { blocks := PythonLiterateParser.parse_blocks content,
        metadata := metadata, source_path := source_path }

/-! ### Executor (executor.py, class CodeExecutor) -/

namespace CodeExecutor

/-- Error formatting of the per-block `except` handler:
`f"{type(e).__name__}: {e!s}"` plus the line suffix when `block.line_number`
is truthy (non-zero). -/
def formatPyError (e : PyExn) (lineNumber : Nat) : String :=
  e.kind ++ ": " ++ e.msg ++
    (if lineNumber ≠ 0 then
      "\n  at line " ++ toString lineNumber ++ " in code block"
    else "")

/-- executor.py `_create_initial_namespace`: the script-identity bindings.
Path absolutisation (`Path.absolute()`, `Path.cwd()`) is an OS effect; the
model keeps the given source path and uses the sentinel name for the
in-memory case. -/
def initialNamespace (source_path : Option String) : NS :=
  [("__name__", PyVal.vStr "__main__"),
   ("__file__", PyVal.vStr (match source_path with
                            | some p => p
                            | none => "<stdin>")),
   ("__doc__", PyVal.vNone),
   ("__package__", PyVal.vNone),
   ("__builtins__", PyVal.vOpaque "builtins")]

/-- Outcome of `_execute_code_block` on one block: the block with its
dynamic fields updated (the source mutates it in place), the namespace, and
the final contents of `stdout_buffer` (the redirected stream). -/
structure ExecResult where
  blk : CodeBlock
  ns : NS
  buffer : String

/-- Success epilogue of `_execute_code_block`: `output =
stdout_buffer.getvalue()`, and only when that is non-empty (before
trimming) is `block.output` assigned `output.rstrip()`. -/
def finishOk (b : CodeBlock) (ns : NS) (buffer : String) : ExecResult :=
  ⟨{ b with output := if buffer ≠ "" then some (pyRstrip buffer) else b.output },
   ns, buffer⟩

/-- The outer `except Exception` handler of `_execute_code_block`: format
and store the error; the output-capture lines are skipped, so
`block.output` keeps its previous value even though the buffer holds what
was printed before the failure. -/
def finishErr (b : CodeBlock) (e : PyExn) (ns : NS) (buffer : String) :
    ExecResult :=
  ⟨{ b with error := some (formatPyError e b.line_number) }, ns, buffer⟩

/-- The `except Exception: exec(line, self.namespace)` fallback shared by
the single-line branch and the last-line evaluation of the multi-line
branch: execute `line` as a statement; an exception from this `exec`
reaches the outer handler.  `buf` is what the buffer holds already. -/
def runLineFallback (I : PyInterp) (b : CodeBlock) (line : String) (ns : NS)
    (buf : String) : ExecResult :=
  let sr := I.execS line ns
  match sr.res with
  | .ok _ => finishOk b sr.ns (buf ++ sr.out)
  | .error e => finishErr b e sr.ns (buf ++ sr.out)

/-- The `exec(full_code, self.namespace)` branch taken when the block is
not ended by a standalone expression (or contains a `:`-terminated line):
the whole stripped content runs as one statement sequence, never printing
an auto-display value. -/
def runFullAsStmts (I : PyInterp) (b : CodeBlock) (ns : NS) : ExecResult :=
  runLineFallback I b (pyStrip b.content) ns ""

/-- The shared `try: result = eval(line); if result is not None:
print(repr(result)) except Exception: exec(line)` sequence, used for a
single-line block and for the last line of an expression-ended multi-line
block.  `buf` is the buffer content accumulated before this step. -/
def evalLineStep (I : PyInterp) (b : CodeBlock) (line : String) (ns : NS)
    (buf : String) : ExecResult :=
  let er := I.evalE line ns
  match er.res with
  | .ok v =>
      finishOk b er.ns
        (buf ++ er.out ++ (if v ≠ PyVal.vNone then I.reprV v ++ "\n" else ""))
  | .error _ => runLineFallback I b line er.ns (buf ++ er.out)

/-- executor.py `_execute_code_block` (matplotlib-absent branch, so
`figures` is untouched): split the stripped content; a single line goes
through eval-with-statement-fallback; multiple lines auto-display the last
line only when no line ends in `:` (after rstrip) and the last line
compiles as an expression. -/
def execute_code_block (I : PyInterp) (b : CodeBlock) (ns : NS) : ExecResult :=
  if strToLower b.language ≠ "python" then ⟨b, ns, ""⟩
  else
    let lines := splitLines (pyStrip b.content)
    if lines.length = 1 then
      evalLineStep I b (lines.headD "") ns ""
    else
      let last_line := pyStrip (lines.getLastD "")
      let in_control_structure := lines.any fun l => strEndsWith (pyRstrip l) ":"
      let last_is_expression :=
        last_line != "" && !in_control_structure && I.compilesAsExpr last_line
      if last_is_expression then
        let statements := joinLines lines.dropLast
        if pyStrip statements ≠ "" then
          let sr := I.execS statements ns
          match sr.res with
          | .error e => finishErr b e sr.ns sr.out
          | .ok _ => evalLineStep I b last_line sr.ns sr.out
        else evalLineStep I b last_line ns ""
      else runFullAsStmts I b ns

/-- One inline marker of `_process_markdown_block`: run or evaluate the
expression against the shared namespace and substitute the first textual
occurrence of the reconstructed marker pattern; any exception leaves the
text untouched (the namespace keeps whatever mutation happened before the
failure).  The stdout of inline code is not redirected by the source and
is not part of the document, so the model drops it. -/
def processInline (I : PyInterp) (acc : String × NS) (ic : InlineCode) :
    String × NS :=
  let (text, ns) := acc
  if ic.is_statement then
    let sr := I.execS ic.expression ns
    match sr.res with
    | .ok _ => (subFirstMarker false ic.expression "" text, sr.ns)
    | .error _ => (text, sr.ns)
  else
    let er := I.evalE ic.expression ns
    match er.res with
    | .ok v =>
        (subFirstMarker true ic.expression
          (if v ≠ PyVal.vNone then I.strV v else "") text, er.ns)
    | .error _ => (text, er.ns)

/-- Modelled from the spec: the class `NhanduParser` (the fenced-code
markdown front end) is imported by `_process_markdown_block` but its module
is not part of this snapshot; the spec states that inline-expression
extraction is shared by both front ends (one linear left-to-right
non-overlapping scan of the two marker forms), and parser.py labels its own
`inline_code_pattern` as "same as markdown parser", so the missing method
is the scan already embedded as
`PythonLiterateParser.extract_inline_code`. -/
def nhanduParserExtractInlineCode (text : String) : List InlineCode :=
  PythonLiterateParser.extract_inline_code text

/-- executor.py `_process_markdown_block`: extract the inline markers of a
markdown block and fold the substitution over them in extraction order,
threading the shared namespace; with no markers the block is returned
unchanged, else a fresh `MarkdownBlock` with the substituted text and the
same line number. -/
def process_markdown_block (I : PyInterp) (mb : MarkdownBlock) (ns : NS) :
    MarkdownBlock × NS :=
  let inline_codes := nhanduParserExtractInlineCode mb.content
  if inline_codes.isEmpty then (mb, ns)
  else
    let (text, ns1) := inline_codes.foldl (processInline I) (mb.content, ns)
    (⟨text, mb.line_number⟩, ns1)

/-- The per-block dispatch of the `for block in doc.blocks` loop of
`execute_document`: code blocks run through `_execute_code_block` (which
itself passes non-Python languages through untouched), markdown blocks
through `_process_markdown_block`. -/
def processBlock (I : PyInterp) (ns : NS) : Block → Block × NS
  | .md mb =>
      let (mb1, ns1) := process_markdown_block I mb ns
      (.md mb1, ns1)
  | .code cb =>
      let r := execute_code_block I cb ns
      (.code r.blk, r.ns)

/-- The block loop of `execute_document`, threading the namespace and
collecting one result block per input block, in order. -/
def execBlocks (I : PyInterp) (ns : NS) : List Block → List Block × NS
  | [] => ([], ns)
  | b :: bs =>
      let (b1, ns1) := processBlock I ns b
      let (bs1, ns2) := execBlocks I ns1 bs
      (b1 :: bs1, ns2)

/-- executor.py `execute_document`: reset the namespace to the script
bindings and run every block in order.  The working-directory switch, the
figures-directory creation and the `sys.path`/`sys.argv` scope are OS
effects with no bearing on block fields and are not modelled; the
`try/finally` guarantees their restoration but the loop body itself never
raises (every failure is consumed at block level), so the function is
total. -/
def execute_document (I : PyInterp) (doc : Document) : ExecutedDocument :=
  let ns0 := initialNamespace doc.source_path
  let (blocks, nsF) := execBlocks I ns0 doc.blocks
  { blocks := blocks, metadata := doc.metadata,
    source_path := doc.source_path, namespaceDict := nsF,
    execution_errors := [] }

end CodeExecutor

/-! ### Renderers (renderer.py) -/

/-- Python truthiness of an optional-string field (`block.output`,
`block.error`): `None` and the empty string are falsy. -/
def optTruthy : Option String → Bool
  | none => false
  | some s => s != ""

namespace MarkdownRenderer

/-- renderer.py `MarkdownRenderer._render_code_block`: hidden blocks render
to the empty string (the `{hide=true}` attribute branch below the early
return is dead code in the source and therefore unreachable here too);
otherwise the fenced code, then an `Output:` section when any of output,
error or figures is present. -/
def render_code_block (b : CodeBlock) : String :=
  if b.hidden then ""
  else
    let parts := ["```" ++ b.language, pyRstrip b.content, "```"]
    let parts :=
      if optTruthy b.output || optTruthy b.error || !b.figures.isEmpty then
        parts ++ ["", "Output:", "```"]
          ++ (match b.output with
              | some o => if o != "" then [o] else []
              | none => [])
          ++ (match b.error with
              | some e => if e != "" then ["Error: " ++ e] else []
              | none => [])
          ++ ["```"]
          ++ (b.figures.flatMap fun f => ["", "![Figure](" ++ f ++ ")"])
      else parts
    joinLines (parts ++ [""])

/-- renderer.py `MarkdownRenderer.render`: optional frontmatter re-dump
(`yaml.dump` abstracted as `dump`), then each block behind the defensive
emptiness filters. -/
def render (dump : List (String × Yaml) → String) (doc : ExecutedDocument) :
    String :=
  let fmParts :=
    if !doc.metadata.raw.isEmpty then
      ["---", pyStrip (dump doc.metadata.raw), "---", ""]
    else []
  let blockParts := doc.blocks.foldl
    (fun acc b =>
      match b with
      | .md mb => if pyStrip mb.content ≠ "" then acc ++ [mb.content] else acc
      | .code cb =>
          if pyStrip cb.content ≠ "" || optTruthy cb.output
              || optTruthy cb.error || !cb.figures.isEmpty then
            acc ++ [render_code_block cb]
          else acc) []
  joinLines (fmParts ++ blockParts)

end MarkdownRenderer

namespace HTMLRenderer

/-- The external collaborators of the HTML renderer: the pygments style
list and formatter CSS, the pygments highlighter, the mistune markdown
converter, and the filesystem read used to embed figures (`none` = the
file does not exist). -/
structure HtmlEnv where
  validStyles : List String
  mdToHtml : String → String
  highlightFn : String → String → String
  defaultCss : String
  readFileB64 : String → Option String

/-- renderer.py `HTMLRenderer._escape_html`. -/
def escape_html (text : String) : String :=
  strReplace1 (strReplace1 (strReplace1 (strReplace1 (strReplace1 text
    '&' "&amp;") '<' "&lt;") '>' "&gt;") '\x22' "&quot;") '\x27' "&#39;"

/-- The suggestion text of `_resolve_theme` for an unknown theme name. -/
def themeSuggestion (validStyles : List String) (theme : String) : String :=
  let similar := validStyles.filter fun s =>
    pyIn (strToLower theme) s || pyIn s (strToLower theme)
  if !similar.isEmpty then
    " Did you mean: " ++ joinComma (similar.take 3) ++ "?"
  else
    " Available themes: " ++
      joinComma ((validStyles.mergeSort (fun a b => a ≤ b)).take 10) ++ "..."

/-- renderer.py `HTMLRenderer._resolve_theme`: fall back to the default
theme for a missing or falsy `code_theme`, raise `ValueError` for an
unrecognised name (and `AttributeError` for a truthy non-string value, on
which `.lower()` fails while building the suggestion). -/
def resolve_theme (env : HtmlEnv) (requested : Option Yaml) :
    Except PyExn String :=
  let theme : Yaml := match requested with
    | some y => if yamlTruthy y then y else Yaml.yStr "github-dark"
    | none => Yaml.yStr "github-dark"
  match theme with
  | .yStr s =>
      if env.validStyles.contains s then .ok s
      else .error ⟨"ValueError",
        "Unknown code theme \x27" ++ s ++ "\x27." ++
          themeSuggestion env.validStyles s⟩
  | v => .error ⟨"AttributeError",
      "\x27" ++ v.typeName ++ "\x27 object has no attribute \x27lower\x27"⟩

/-- The `<img>` element for one figure in `_render_code_block_html`:
embedded as a base64 data URI when the file exists, else a plain file
reference (also the fallback on any read error). -/
def figureImg (env : HtmlEnv) (f : String) : String :=
  match env.readFileB64 f with
  | some data =>
      let ext := strToLower f
      let mime :=
        if strEndsWith ext ".png" then "image/png"
        else if strEndsWith ext ".jpg" || strEndsWith ext ".jpeg" then "image/jpeg"
        else if strEndsWith ext ".svg" then "image/svg+xml"
        else "image/png"
      "<img src=\x22data:" ++ mime ++ ";base64," ++ data ++ "\x22 alt=\x22Figure\x22>"
  | none => "<img src=\x22" ++ f ++ "\x22 alt=\x22Figure\x22>"

/-- renderer.py `HTMLRenderer._render_code_block_html`: highlighted code,
then (error taking precedence over output) a `<pre>` section, then the
figures. -/
def render_code_block_html (env : HtmlEnv) (b : CodeBlock) : String :=
  let parts := ["<div class=\x22code-block\x22>",
    "<div class=\x22code-input\x22>" ++ env.highlightFn (pyRstrip b.content) b.language
      ++ "</div>"]
  let parts :=
    if optTruthy b.output || optTruthy b.error || !b.figures.isEmpty then
      parts
        ++ (match b.error with
            | some e =>
                if e != "" then
                  ["<pre class=\x22error\x22>" ++ escape_html e ++ "</pre>"]
                else matchOutputPre b
            | none => matchOutputPre b)
        ++ b.figures.map (figureImg env)
    else parts
  joinLines (parts ++ ["</div>"])
where
  /-- The `elif block.output:` arm. -/
  matchOutputPre (b : CodeBlock) : List String :=
    match b.output with
    | some o =>
        if o != "" then
          ["<pre class=\x22code-output\x22>" ++ escape_html o ++ "</pre>"]
        else []
    | none => []

/-- The per-block arm of the rendering loop in `HTMLRenderer.render`:
markdown converts through mistune when non-blank; a code block renders
only when it is not hidden and carries content, output, error or
figures. -/
def htmlBlockPart (env : HtmlEnv) : Block → Option String
  | .md mb =>
      if pyStrip mb.content ≠ "" then some (env.mdToHtml mb.content) else none
  | .code cb =>
      if !cb.hidden then
        if pyStrip cb.content ≠ "" || optTruthy cb.output
            || optTruthy cb.error || !cb.figures.isEmpty then
          some (render_code_block_html env cb)
        else none
      else none

/-- renderer.py `HTMLRenderer._render_footer`. -/
def render_footer : String :=
  "<footer class=\x22nhandu-footer\x22>\n" ++
  "Made with <a href=\x22https://pypi.org/project/nhandu\x22 " ++
  "target=\x22_blank\x22 rel=\x22noopener noreferrer\x22>Nhandu</a>\n</footer>"

/-- renderer.py `HTMLRenderer.render`: resolve and validate the theme (a
failure propagates to the caller), then the HTML scaffold, the rendered
blocks, and the optional footer.  The static CSS text (including the
pygments style definitions) is a presentation constant carried by the
environment. -/
def render (env : HtmlEnv) (doc : ExecutedDocument) : Except PyExn String := do
  let _theme ← resolve_theme env doc.metadata.code_theme
  let title := match doc.metadata.title with
    | some t => if yamlTruthy t then yamlStr t else "Nhandu Report"
    | none => "Nhandu Report"
  let headParts := ["<!DOCTYPE html>", "<html>", "<head>",
    "<meta charset=\x27utf-8\x27>",
    "<title>" ++ title ++ "</title>",
    "<style>", env.defaultCss, "</style>", "</head>", "<body>"]
  let blockParts := doc.blocks.foldl
    (fun acc b =>
      match htmlBlockPart env b with
      | some p => acc ++ [p]
      | none => acc) []
  let footParts :=
    if yamlTruthy doc.metadata.show_footer then [render_footer] else []
  .ok (joinLines (headParts ++ blockParts ++ footParts ++ ["</body>", "</html>"]))

end HTMLRenderer

/-- renderer.py module-level `render`: select the renderer from the
requested format, falling back to the document metadata; anything but
`"html"` renders as markdown. -/
def render (dump : List (String × Yaml) → String) (env : HTMLRenderer.HtmlEnv)
    (doc : ExecutedDocument) (format : Option String) : Except PyExn String :=
  let output_format : Yaml := match format with
    | some f => if f ≠ "" then Yaml.yStr f else doc.metadata.output
    | none => doc.metadata.output
  match output_format with
  | .yStr "html" => HTMLRenderer.render env doc
  | _ => .ok (MarkdownRenderer.render dump doc)

/-! ### A concrete model of the CPython runtime on a small fragment

The executor is verified against every `PyInterp`; the concrete claims
(auto-display outcomes, failure isolation, the round trip) additionally
need a concrete interpreter.  `miniInterp` models CPython on the fragment
those claims use: integer literals, names, a single `+`, assignment
statements, bare-expression statements and a simple indented `if` block.
Anything outside the fragment behaves as a `SyntaxError`, which is exactly
CPython on the concrete inputs the claims evaluate. -/

/-- Python truthiness of a runtime value. -/
def pyTruthy : PyVal → Bool
  | .vNone => false
  | .vInt n => n != 0
  | .vStr s => s != ""
  | .vOpaque _ => true

/-- Python `repr` on the modelled values. -/
def pyRepr : PyVal → String
  | .vNone => "None"
  | .vInt n => toString n
  | .vStr s => "\x27" ++ s ++ "\x27"
  | .vOpaque t => "<" ++ t ++ ">"

/-- Python `str` on the modelled values. -/
def pyStr : PyVal → String
  | .vNone => "None"
  | .vInt n => toString n
  | .vStr s => s
  | .vOpaque t => "<" ++ t ++ ">"

/-- Identifier check for the mini fragment (keywords excluded, so that a
lone keyword is a `SyntaxError` as in CPython). -/
def isIdentM (s : String) : Bool :=
  s != "" && ((strHeadD s '0').isAlpha || strHeadD s '0' == '_')
    && s.toList.all (fun c => c.isAlphanum || c == '_')
    && !(["if", "else", "elif", "for", "while", "def", "class", "import",
          "return", "None", "True", "False"].contains s)

/-- Atoms of the mini expression fragment. -/
inductive MAtom where
  | lit : Int → MAtom
  | var : String → MAtom

/-- Expressions of the mini fragment: an atom or a single addition. -/
inductive MExpr where
  | atom : MAtom → MExpr
  | add : MAtom → MAtom → MExpr

/-- Parse an atom: a decimal literal or an identifier. -/
def parseAtomM (s : String) : Option MAtom :=
  let t := pyStrip s
  match strToNatQ t with
  | some n => some (.lit n)
  | none => if isIdentM t then some (.var t) else none

/-- Parse a line as a standalone expression of the fragment (the model of
`compile(line, "<string>", "eval")` succeeding). -/
def parseExprM (s : String) : Option MExpr :=
  let t := pyStrip s
  match splitSep3 ' ' '+' ' ' t.toList [] with
  | [a] => (parseAtomM a).map .atom
  | [a, b] =>
      match parseAtomM a, parseAtomM b with
      | some x, some y => some (.add x y)
      | _, _ => none
  | _ => none

/-- Parse a line as an assignment `name = expr-text`. -/
def parseAsgnM (s : String) : Option (String × String) :=
  match splitSep3 ' ' '=' ' ' s.toList [] with
  | [l, r] => if isIdentM (pyStrip l) then some (pyStrip l, r) else none
  | _ => none

/-- Evaluate an atom: a missing name raises `NameError` with the CPython
message. -/
def evalAtomM (a : MAtom) (ns : NS) : Except PyExn PyVal :=
  match a with
  | .lit n => .ok (.vInt n)
  | .var x =>
      match nsGet x ns with
      | some v => .ok v
      | none => .error ⟨"NameError", "name \x27" ++ x ++ "\x27 is not defined"⟩

/-- Evaluate a fragment expression; `+` on non-integers raises
`TypeError`. -/
def evalExprM (e : MExpr) (ns : NS) : Except PyExn PyVal :=
  match e with
  | .atom a => evalAtomM a ns
  | .add a b => do
      let x ← evalAtomM a ns
      let y ← evalAtomM b ns
      match x, y with
      | .vInt m, .vInt n => .ok (.vInt (m + n))
      | _, _ => .error ⟨"TypeError", "unsupported operand type(s) for +"⟩

/-- One simple (non-compound) statement of the fragment: blank, assignment
or bare expression. -/
def miniExecSimple (t : String) (ns : NS) : Except PyExn NS :=
  if t == "" then .ok ns
  else
    match parseAsgnM t with
    | some (x, rhs) =>
      match parseExprM rhs with
      | none => .error ⟨"SyntaxError", "invalid syntax"⟩
      | some e =>
        match evalExprM e ns with
        | .error ex => .error ex
        | .ok v => .ok (nsSet x v ns)
    | none =>
      match parseExprM t with
      | none => .error ⟨"SyntaxError", "invalid syntax"⟩
      | some e =>
        match evalExprM e ns with
        | .error ex => .error ex
        | .ok _ => .ok ns

/-- A sequence of simple statements (the body of an `if` block). -/
def miniExecBody : List String → NS → Except PyExn NS
  | [], ns => .ok ns
  | l :: rest, ns =>
    match miniExecSimple (pyStrip l) ns with
    | .error e => .error e
    | .ok ns1 => miniExecBody rest ns1

/-- Statement execution for the fragment: blank lines, assignments, bare
expressions (value discarded, as `exec` discards it) and `if expr:` with a
four-space-indented body of simple statements (one nesting level, enough
for every claim scenario). -/
def miniExecLines : Nat → List String → NS → ExecRes
  | 0, _, ns => ⟨.error ⟨"RecursionError", "maximum recursion depth exceeded"⟩, ns, ""⟩
  | _, [], ns => ⟨.ok (), ns, ""⟩
  | fuel + 1, l :: rest, ns =>
    let t := pyStrip l
    if strStartsWith t "if " && strEndsWith t ":" then
      let condSrc := pyStrip (strDropRight (strDrop t 3) 1)
      let body := rest.takeWhile fun r => strStartsWith r "    "
      let after := rest.drop body.length
      match parseExprM condSrc with
      | none => ⟨.error ⟨"SyntaxError", "invalid syntax"⟩, ns, ""⟩
      | some ce =>
        match evalExprM ce ns with
        | .error e => ⟨.error e, ns, ""⟩
        | .ok v =>
          if pyTruthy v then
            match miniExecBody (body.map (strDrop · 4)) ns with
            | .error e => ⟨.error e, ns, ""⟩
            | .ok ns1 => miniExecLines fuel after ns1
          else miniExecLines fuel after ns
    else
      match miniExecSimple t ns with
      | .error e => ⟨.error e, ns, ""⟩
      | .ok ns1 => miniExecLines fuel rest ns1

/-- The concrete interpreter: CPython on the mini fragment. -/
def miniInterp : PyInterp where
  compilesAsExpr s := (parseExprM s).isSome
  evalE s ns :=
    match parseExprM s with
    | none => ⟨.error ⟨"SyntaxError", "invalid syntax"⟩, ns, ""⟩
    | some e =>
      match evalExprM e ns with
      | .ok v => ⟨.ok v, ns, ""⟩
      | .error ex => ⟨.error ex, ns, ""⟩
  execS s ns := miniExecLines ((splitLines s).length + 1) (splitLines s) ns
  reprV := pyRepr
  strV := pyStr

/-! ### Concrete scenario instances -/

/-- The relation every executed document bears to its parsed original:
one result block per input block, in order, of the same variant, with the
static fields of code blocks untouched (execution may only fill `output`,
`error`, `figures` and rewrite markdown text). -/
def blockCorresponds : Block → Block → Prop
  | .md a, .md b => b.line_number = a.line_number
  | .code a, .code b =>
      b.content = a.content ∧ b.language = a.language ∧
      b.hidden = a.hidden ∧ b.line_number = a.line_number
  | _, _ => False

/-- A YAML oracle for inputs whose frontmatter is never loaded. -/
def oracleTriv : YamlOracle := ⟨fun _ => .error "unused"⟩

/-- PyYAML on the body `title: T`: a one-key mapping. -/
def oracle3 : YamlOracle :=
  ⟨fun s => if s == "title: T" then .ok (.yMap [("title", .yStr "T")])
            else .error "unused"⟩

/-- PyYAML on the body `- a`: a YAML sequence, i.e. a Python list -- valid
YAML that is not a mapping. -/
def oracle6 : YamlOracle :=
  ⟨fun s => if s == "- a" then .ok (.yList [.yStr "a"]) else .error "unused"⟩

/-- PyYAML on the body `42`: a scalar, valid YAML that is not a mapping. -/
def oracle42 : YamlOracle :=
  ⟨fun s => if s == "42" then .ok (.yInt 42) else .error "unused"⟩

/-- A `yaml.dump` stand-in for documents with empty `raw` metadata (never
invoked on them). -/
def dumpTriv : List (String × Yaml) → String := fun _ => ""

/-- A concrete renderer environment: the pygments default theme exists,
markdown and highlighting pass text through, CSS is empty and no figure
file exists.  (None of these affect which blocks are rendered.) -/
def envTriv : HTMLRenderer.HtmlEnv :=
  { validStyles := ["github-dark"], mdToHtml := id,
    highlightFn := fun c _ => c, defaultCss := "",
    readFileB64 := fun _ => none }

/-- The C2 round-trip source document, one markdown comment line. -/
def c2content : String := "#\x27 Result: <%= 2 + 2 %>"

/-- The parse of `c2content`: one markdown block. -/
def c2doc : Document :=
  { blocks := [Block.md ⟨"Result: <%= 2 + 2 %>", 1⟩] }

/-- The text the round trip renders. -/
def c2out : String := "Result: 4"

/-- A commented-source document that begins with a frontmatter section. -/
def fmLeakContent : String :=
  "#\x27 ---\n#\x27 title: T\n#\x27 ---\n#\x27 hello"

/-- A hidden code block carrying a non-empty `output` (the marker string
`XYZZY` appears nowhere in any renderer scaffold text). -/
def bHid : CodeBlock :=
  { content := "x = 1", hidden := true, line_number := 1,
    output := some "XYZZY" }

/-- An executed document whose only block is the hidden artifact-carrying
block. -/
def docH : ExecutedDocument := { blocks := [Block.code bHid] }

/-- Interpreter for the C5 scenario: the namespace holds a stateful
function `step` that raises `ValueError` on its first call and prints
`step ran` on its second; so `eval("step()")` raises a runtime (not
syntax) error although the line compiles as an expression, and the
fallback `exec("step()")` succeeds.  A call counter records how often the
code ran. -/
def interpC5 : PyInterp where
  compilesAsExpr s := s == "step()"
  evalE s ns :=
    if s == "step()" then
      ⟨.error ⟨"ValueError", "first call failed"⟩, nsSet "calls" (.vInt 1) ns, ""⟩
    else ⟨.error ⟨"SyntaxError", "invalid syntax"⟩, ns, ""⟩
  execS s ns :=
    if s == "step()" then
      ⟨.ok (), nsSet "calls" (.vInt 2) ns, "step ran\n"⟩
    else ⟨.error ⟨"SyntaxError", "invalid syntax"⟩, ns, ""⟩
  reprV := pyRepr
  strV := pyStr

/-- The single-line block calling the stateful function. -/
def blockStep : CodeBlock := { content := "step()" }

/-- Interpreter for the C9 scenario, CPython on the single line
`print("hi"); 1/0`: eval-compiling it raises `SyntaxError` (a statement
list is not an expression), and `exec` prints `hi` and then raises
`ZeroDivisionError` -- output is produced, then the block fails. -/
def interpC9 : PyInterp where
  compilesAsExpr _ := false
  evalE _ ns := ⟨.error ⟨"SyntaxError", "invalid syntax"⟩, ns, ""⟩
  execS s ns :=
    if s == "print(\x22hi\x22); 1/0" then
      ⟨.error ⟨"ZeroDivisionError", "division by zero"⟩, ns, "hi\n"⟩
    else ⟨.error ⟨"SyntaxError", "invalid syntax"⟩, ns, ""⟩
  reprV := pyRepr
  strV := pyStr

/-- The block that prints and then fails. -/
def blockC9 : CodeBlock := { content := "print(\x22hi\x22); 1/0" }

/-- A plain successful single-line block (C9 witness). -/
def b9w : CodeBlock := { content := "1 + 1" }

/-- The C7 auto-display scenario blocks. -/
def b7a : CodeBlock := { content := "2 + 2" }

/-- Assignment-only single-line block. -/
def b7b : CodeBlock := { content := "x = 4" }

/-- Assignment then bare variable reference. -/
def b7c : CodeBlock := { content := "x = 4\nx" }

/-- A block with an `if ...:` header whose last line is an expression. -/
def b7d : CodeBlock := { content := "x = 10\nif x:\n    y = 1\nx + 1" }

/-- The C8 document: three sequential Python code blocks, the middle one
referencing the undefined name `nope`. -/
def doc8 : Document :=
  { blocks := [Block.code { content := "2 + 2", line_number := 1 },
               Block.code { content := "nope", line_number := 3 },
               Block.code { content := "3 + 4", line_number := 5 }] }

/-- The C10 block from the claim: a dict literal opened across lines, so a
line ends in `:` without being a control-structure header, followed by a
bare final expression. -/
def b10 : CodeBlock := { content := "d = \x7b1:\n     2\x7d\nd" }

/-- The C6 counterexample source: frontmatter whose body is a YAML list. -/
def c6ListContent : String := "#\x27 ---\n#\x27 - a\n#\x27 ---"

/-- The C6 witness source: frontmatter whose body is a YAML scalar. -/
def c6ScalarContent : String := "#\x27 ---\n#\x27 42\n#\x27 ---"

/-- The error text the C8 middle block records. -/
def nameErrNope : String :=
  "NameError: name \x27nope\x27 is not defined\n  at line 3 in code block"

/-! ### Theorems -/

open CodeExecutor PythonLiterateParser

/-- Helper: `_execute_code_block` never changes the static fields of a
block, on any branch (every exit goes through a `with`-update of the
dynamic fields only, or returns the block unchanged). -/
theorem execute_code_block_static (I : PyInterp) (cb : CodeBlock) (ns : NS) :
    (execute_code_block I cb ns).blk.content = cb.content ∧
    (execute_code_block I cb ns).blk.language = cb.language ∧
    (execute_code_block I cb ns).blk.hidden = cb.hidden ∧
    (execute_code_block I cb ns).blk.line_number = cb.line_number := by
  refine ⟨?_, ?_, ?_, ?_⟩ <;>
  · simp only [execute_code_block, evalLineStep, runFullAsStmts,
      runLineFallback, finishOk, finishErr]
    repeat' split
    all_goals rfl

/-- Helper: `_process_markdown_block` keeps the line number. -/
theorem process_markdown_block_line (I : PyInterp) (mb : MarkdownBlock)
    (ns : NS) :
    (process_markdown_block I mb ns).1.line_number = mb.line_number := by
  simp only [process_markdown_block]
  repeat' split
  all_goals rfl

/-- Helper: each loop iteration of `execute_document` turns one block into
one block of the same variant with static fields preserved. -/
theorem processBlock_corresponds (I : PyInterp) (ns : NS) (b : Block) :
    blockCorresponds b (processBlock I ns b).1 := by
  cases b with
  | md mb =>
      simp only [processBlock, blockCorresponds]
      exact process_markdown_block_line I mb ns
  | code cb =>
      simp only [processBlock, blockCorresponds]
      exact execute_code_block_static I cb ns

/-- Helper: the block loop pairs every input block with exactly one result
block, in order. -/
theorem execBlocks_corresponds (I : PyInterp) (blocks : List Block) :
    ∀ ns : NS, List.Forall₂ blockCorresponds blocks (execBlocks I ns blocks).1 := by
  induction blocks with
  | nil => intro ns; exact List.Forall₂.nil
  | cons b bs ih =>
      intro ns
      simp only [execBlocks]
      exact List.Forall₂.cons (processBlock_corresponds I ns b) (ih _)

/-- Claim C1: executing any parsed document completes and produces an
`ExecutedDocument`; exceptions raised while processing an individual block
(code execution or inline-expression resolution in markdown) are consumed
at block level -- the result pairs every input block, in order, with one
output block of the same variant whose static fields are untouched, for
every behaviour of the Python runtime.  (Totality of `execute_document`
itself is the no-escaping-exception property: every failure outcome of the
interpreter is absorbed into the error field of its own block.) -/
theorem execute_document_isolates_block_failures (I : PyInterp) (doc : Document) :
    List.Forall₂ blockCorresponds doc.blocks
      (CodeExecutor.execute_document I doc).blocks := by
  unfold CodeExecutor.execute_document
  exact execBlocks_corresponds I doc.blocks _

/-- Claim C2: parsing the one-line commented-source document
`#' Result: <%= 2 + 2 %>`, executing it and rendering to markdown yields
exactly `Result: 4`, which contains `Result: 4` and no remaining `<%=` or
`%>` marker text. -/
theorem roundtrip_inline_expression :
    parse oracleTriv c2content none = .ok c2doc ∧
    render dumpTriv envTriv (CodeExecutor.execute_document miniInterp c2doc)
      (some "markdown") = .ok c2out ∧
    pyIn "Result: 4" c2out = true ∧
    pyIn "<%=" c2out = false ∧
    pyIn "%>" c2out = false :=
  ⟨rfl, rfl, rfl, rfl, rfl⟩

/-- Claim C3 counterexample: the commented-source document that begins
with the frontmatter `title: T` parses with that metadata, yet the first
(and only) markdown block contains the frontmatter delimiter lines and the
body line `title: T` -- the frontmatter is not consumed before
block-splitting. -/
theorem frontmatter_leaks_into_first_markdown_block :
    parse oracle3 fmLeakContent none =
      .ok { blocks := [Block.md ⟨"---\ntitle: T\n---\nhello", 1⟩],
            metadata := { title := some (.yStr "T"),
                          raw := [("title", .yStr "T")] },
            source_path := none } ∧
    pyIn "title: T" "---\ntitle: T\n---\nhello" = true :=
  ⟨rfl, rfl⟩

/-- Claim C3 (amended): metadata extraction and block-splitting are
independent passes over the same full text -- `parse` always returns the
blocks of `_parse_blocks` applied to the entire content, so frontmatter
lines are part of what block-splitting sees (and, being `#'` lines, they
land in the first markdown block). -/
theorem parse_blocks_sees_full_content (Y : YamlOracle) (content : String)
    (sp : Option String) :
    parse Y content sp = (extract_metadata Y content).map
      (fun m => { blocks := parse_blocks content, metadata := m,
                  source_path := sp }) := by
  unfold parse
  cases extract_metadata Y content <;> rfl

/-- Claim C4 counterexample: a hidden code block whose `output` is the
non-empty string `XYZZY` renders to markdown as an empty string and to
HTML without the output -- the artifacts of a hidden block are silently
dropped by both renderers, not rendered. -/
theorem hidden_block_artifacts_are_dropped :
    bHid.hidden = true ∧ optTruthy bHid.output = true ∧
    MarkdownRenderer.render dumpTriv docH = "" ∧
    (HTMLRenderer.render envTriv docH).toOption.map (pyIn "XYZZY") =
      some false :=
  ⟨rfl, rfl, rfl, rfl⟩

/-- Claim C4 (amended): both renderers skip a hidden code block
unconditionally -- the content/output/error/figures test is an emptiness
filter for visible blocks only, so a hidden block contributes the empty
string to markdown output and nothing to HTML output no matter what
artifacts it carries. -/
theorem hidden_blocks_never_render (b : CodeBlock) (h : b.hidden = true) :
    MarkdownRenderer.render_code_block b = "" ∧
    ∀ env : HTMLRenderer.HtmlEnv, HTMLRenderer.htmlBlockPart env (.code b) = none := by
  constructor
  · simp only [MarkdownRenderer.render_code_block, h]
    rfl
  · intro env
    simp [HTMLRenderer.htmlBlockPart, h]

/-- Claim C4 witness: the amended theorem applied to the concrete hidden
block carrying output. -/
theorem hidden_blocks_never_render_witness :
    bHid.hidden = true ∧
    MarkdownRenderer.render_code_block bHid = "" ∧
    HTMLRenderer.htmlBlockPart envTriv (.code bHid) = none :=
  ⟨rfl, (hidden_blocks_never_render bHid rfl).1,
    (hidden_blocks_never_render bHid rfl).2 envTriv⟩

/-- Claim C5 counterexample: the single-line block `step()` compiles as an
expression and its evaluation raises a runtime `ValueError`, yet the
executor re-executes it as a statement: the fallback `exec` runs (its
print is captured as the block output, the call counter reaches 2) and no
error is recorded. -/
theorem runtime_error_falls_back_to_statement :
    interpC5.compilesAsExpr "step()" = true ∧
    (interpC5.evalE "step()" []).res =
      .error ⟨"ValueError", "first call failed"⟩ ∧
    (execute_code_block interpC5 blockStep []).blk.error = none ∧
    (execute_code_block interpC5 blockStep []).blk.output = some "step ran" ∧
    nsGet "calls" (execute_code_block interpC5 blockStep []).ns =
      some (.vInt 2) :=
  ⟨rfl, rfl, rfl, rfl, rfl⟩

/-- Claim C5 (amended): for a single-line block the fallback to statement
execution is taken whenever evaluation raises any exception -- runtime
errors included, since the branch catches `Exception`, not only syntax
failures; no expression-compile check guards the single-line path. -/
theorem single_line_fallback_on_any_exception (I : PyInterp) (b : CodeBlock)
    (ns : NS) (l : String) (e : PyExn)
    (hlang : strToLower b.language = "python")
    (hline : splitLines (pyStrip b.content) = [l])
    (herr : (I.evalE l ns).res = .error e) :
    execute_code_block I b ns =
      runLineFallback I b l (I.evalE l ns).ns ("" ++ (I.evalE l ns).out) := by
  simp only [execute_code_block, hlang, hline, evalLineStep]
  simp only [List.length_cons, List.length_nil, if_true]
  rcases hev : I.evalE l ns with ⟨res, ns1, out1⟩
  rw [hev] at herr
  simp only at herr
  subst herr
  simp only [List.headD_cons]
  rw [hev]
  simp

/-- Claim C5 witness: the amended theorem instantiated at the `step()`
scenario. -/
theorem single_line_fallback_witness :
    strToLower blockStep.language = "python" ∧
    splitLines (pyStrip blockStep.content) = ["step()"] ∧
    (interpC5.evalE "step()" []).res =
      .error ⟨"ValueError", "first call failed"⟩ ∧
    execute_code_block interpC5 blockStep [] =
      runLineFallback interpC5 blockStep "step()"
        (interpC5.evalE "step()" []).ns ("" ++ (interpC5.evalE "step()" []).out) :=
  ⟨rfl, rfl, rfl,
    single_line_fallback_on_any_exception interpC5 blockStep [] "step()"
      ⟨"ValueError", "first call failed"⟩ rfl rfl rfl⟩

/-- Claim C6 counterexample: a frontmatter body that is valid YAML but a
list (`- a`) does not silently fall back to default metadata: `from_dict`
raises `AttributeError`, which escapes `parse` to its caller. -/
theorem nonmapping_frontmatter_raises :
    oracle6.load "- a" = .ok (.yList [.yStr "a"]) ∧
    parse oracle6 c6ListContent none =
      .error (attrGetError (.yList [.yStr "a"])) :=
  ⟨rfl, rfl⟩

/-- Claim C6 (amended): with a collected and closed frontmatter body, a
`yaml.YAMLError` silently yields all-default metadata, but a body that
loads to a truthy non-mapping value raises `AttributeError` out of
`parse`; only the YAML syntax failure is caught. -/
theorem frontmatter_failure_modes (Y : YamlOracle) (content : String)
    (sp : Option String) (ls : List String)
    (hc : fmCollectTop content = (ls, true)) (hne : ls.isEmpty = false) :
    (∀ msg, Y.load (joinLines ls) = .error msg →
      parse Y content sp =
        .ok { blocks := parse_blocks content, metadata := {},
              source_path := sp }) ∧
    (∀ v, Y.load (joinLines ls) = .ok v → yamlTruthy v = true →
      v.isMap = false → parse Y content sp = .error (attrGetError v)) := by
  constructor
  · intro msg hload
    unfold parse extract_metadata
    rw [hc]
    simp only [hne, Bool.not_false, Bool.true_and, if_true, hload]
    rfl
  · intro v hload htr hmap
    unfold parse extract_metadata
    rw [hc]
    simp only [hne, Bool.not_false, Bool.true_and, if_true, hload, htr, if_pos]
    cases v <;> simp_all [DocumentMetadata.from_dict, Yaml.isMap] <;> rfl

/-- Claim C6 witness: a scalar frontmatter body (`42`) raises
`AttributeError` out of `parse`, by the amended theorem. -/
theorem frontmatter_failure_modes_witness :
    fmCollectTop c6ScalarContent = (["42"], true) ∧
    parse oracle42 c6ScalarContent none = .error (attrGetError (.yInt 42)) :=
  ⟨rfl,
    (frontmatter_failure_modes oracle42 c6ScalarContent none ["42"] rfl rfl).2
      (.yInt 42) rfl rfl rfl⟩

/-- Claim C7: auto-display semantics on the four spec scenarios -- a
single-line `2 + 2` block outputs text containing `4`; a single-line
`x = 4` block produces no output; a multi-line block ending in a bare
variable after an assignment auto-displays the value; a multi-line block
with an `if ...:` header produces no auto-display although its last line
compiles as an expression. -/
theorem auto_display_scenarios :
    ((execute_code_block miniInterp b7a []).blk.output.map (pyIn "4")) =
      some true ∧
    (execute_code_block miniInterp b7a []).blk.error = none ∧
    (execute_code_block miniInterp b7b []).blk.output = none ∧
    (execute_code_block miniInterp b7b []).blk.error = none ∧
    ((execute_code_block miniInterp b7c []).blk.output.map (pyIn "4")) =
      some true ∧
    (execute_code_block miniInterp b7c []).blk.error = none ∧
    miniInterp.compilesAsExpr "x + 1" = true ∧
    (execute_code_block miniInterp b7d []).blk.output = none ∧
    (execute_code_block miniInterp b7d []).blk.error = none :=
  ⟨rfl, rfl, rfl, rfl, rfl, rfl, rfl, rfl, rfl⟩

/-- Claim C8: executing the three-block document whose middle block
references the undefined `nope` yields block 1 with output `4` and no
error, block 2 with a `NameError` naming `nope`, and block 3 executed
normally with output `7`. -/
theorem failure_isolation_three_blocks :
    (CodeExecutor.execute_document miniInterp doc8).blocks =
      [Block.code { content := "2 + 2", line_number := 1, output := some "4" },
       Block.code { content := "nope", line_number := 3, error := some nameErrNope },
       Block.code { content := "3 + 4", line_number := 5, output := some "7" }] ∧
    pyIn "nope" nameErrNope = true :=
  ⟨rfl, rfl⟩

/-- Claim C9 counterexample: the single-line block `print("hi"); 1/0`
produces the captured stdout `hi` before failing, yet the failing block
stores no output at all -- the capture epilogue is skipped on the error
path, so the non-empty captured output is discarded instead of stored. -/
theorem error_path_discards_captured_output :
    (execute_code_block interpC9 blockC9 []).buffer = "hi\n" ∧
    (execute_code_block interpC9 blockC9 []).blk.output = none ∧
    (execute_code_block interpC9 blockC9 []).blk.error =
      some "ZeroDivisionError: division by zero" :=
  ⟨rfl, rfl, rfl⟩

/-- Helper: on a Python block, `_execute_code_block` exits either through
the success epilogue `finishOk` or through the exception handler
`finishErr` (for some namespace and buffer). -/
theorem execute_code_block_cases (I : PyInterp) (b : CodeBlock) (ns : NS)
    (hlang : strToLower b.language = "python") :
    (∃ ns1 buf, execute_code_block I b ns = finishOk b ns1 buf) ∨
    (∃ e ns1 buf, execute_code_block I b ns = finishErr b e ns1 buf) := by
  simp only [execute_code_block, evalLineStep, runFullAsStmts,
    runLineFallback, hlang]
  repeat' split
  all_goals
    first
      | exact Or.inl ⟨_, _, rfl⟩
      | exact Or.inr ⟨_, _, _, rfl⟩
      | simp_all

/-- Claim C9 (amended): for a Python block, when execution completes
without recording an error the block output is exactly the captured
buffer, trimmed of trailing whitespace, stored only if the untrimmed
capture is non-empty; when an error is recorded the captured output is
discarded and the output field keeps its prior value. -/
theorem captured_output_storage (I : PyInterp) (b : CodeBlock) (ns : NS)
    (hlang : strToLower b.language = "python") (hpre : b.error = none) :
    ((execute_code_block I b ns).blk.error = none →
      (execute_code_block I b ns).blk.output =
        (if (execute_code_block I b ns).buffer ≠ "" then
          some (pyRstrip (execute_code_block I b ns).buffer)
         else b.output)) ∧
    ((execute_code_block I b ns).blk.error ≠ none →
      (execute_code_block I b ns).blk.output = b.output) := by
  rcases execute_code_block_cases I b ns hlang with ⟨ns1, buf, h⟩ | ⟨e, ns1, buf, h⟩
  · rw [h]
    simp [finishOk, hpre]
  · rw [h]
    simp [finishErr]

/-- Claim C9 witness: the amended theorem applied to the successful
single-line block `1 + 1` under the concrete interpreter. -/
theorem captured_output_storage_witness :
    strToLower b9w.language = "python" ∧ b9w.error = none ∧
    (execute_code_block miniInterp b9w []).blk.error = none ∧
    (execute_code_block miniInterp b9w []).blk.output =
      (if (execute_code_block miniInterp b9w []).buffer ≠ "" then
        some (pyRstrip (execute_code_block miniInterp b9w []).buffer)
       else b9w.output) :=
  ⟨rfl, rfl, rfl,
    (captured_output_storage miniInterp b9w [] rfl rfl).1 rfl⟩

/-- Claim C10: in a multi-line Python block, one line ending (after
rstrip) in a colon suffices to suppress auto-display entirely -- the
executor takes the execute-everything-as-statements branch, which never
prints an evaluated value, whatever the last line looks like and whatever
the colon line is (a control header or a dict literal opened across
lines). -/
theorem colon_line_suppresses_auto_display (I : PyInterp) (b : CodeBlock)
    (ns : NS) (hlang : strToLower b.language = "python")
    (hlen : (splitLines (pyStrip b.content)).length ≠ 1)
    (hcolon : (splitLines (pyStrip b.content)).any
      (fun l => strEndsWith (pyRstrip l) ":") = true) :
    execute_code_block I b ns = runFullAsStmts I b ns := by
  simp only [execute_code_block, hlang, hcolon]
  rw [if_neg hlen]
  simp

/-- Claim C10 witness: the dict-literal block from the claim (`d = {1:`
continued on the next line, then a bare `d`) satisfies the hypotheses, so
the executor runs it as one statement sequence. -/
theorem colon_line_suppresses_auto_display_witness :
    strToLower b10.language = "python" ∧
    (splitLines (pyStrip b10.content)).length ≠ 1 ∧
    (splitLines (pyStrip b10.content)).any
      (fun l => strEndsWith (pyRstrip l) ":") = true ∧
    execute_code_block miniInterp b10 [] = runFullAsStmts miniInterp b10 [] :=
  ⟨rfl, by decide, rfl,
    colon_line_suppresses_auto_display miniInterp b10 [] rfl (by decide) rfl⟩

end Nhandu
